import Mathlib

/-!
Shallow embedding of the two todo HTTP services of this repository:

* variant A, `src/AI_Fellowship/REST_Api/Fast_APi/app.py` (FastAPI):
  an in-memory list `todos` of records `{id, task, completed}`, IDs assigned
  as `len(todos) + 1`, with list/create/get/update/delete/health endpoints;
* variant B, `src/AI_Fellowship/REST_Api/Flask/app.py` (Flask):
  an in-memory list `todos` of records `{id, task}` plus a monotonic counter
  `next_id` starting at 1, with list/create endpoints only.

HTTP routing, JSON parsing and serialization are framework adapters; the
embedding models each handler as a pure function from the module-level state
(the `todos` list, and for variant B the `next_id` counter) and the already
parsed request fields to a result (`Except ApiError`) together with the state
the globals hold after the request.  Pydantic/Flask validation performed
before or inside the handler body is part of each modelled operation.
-/

/-- Errors surfaced at the HTTP boundary: `validationError` models pydantic's
422 (variant A) and Flask's 400 `{"error": ...}` responses (variant B);
`notFound` models `HTTPException(status_code=404, ...)`. -/
inductive ApiError where
  | validationError
  | notFound
deriving Repr, DecidableEq

deriving instance DecidableEq for Except

namespace FastApi

/-- A todo record of variant A, one entry of the module-level list
`todos: List[Dict[str, Any]]`: keys `"id"`, `"task"`, `"completed"`.
Python ints are modelled as `Int`, Python strings as `String`. -/
structure Todo where
  id : Int
  task : String
  completed : Bool
deriving Repr, DecidableEq

/-- Embeds `get_next_id`: `return len(todos) + 1`. -/
def get_next_id (todos : List Todo) : Int :=
  todos.length + 1

/-- Embeds `find_todo_by_id`: first element of `todos` whose `"id"` equals
`todo_id`, `None` if there is none
(`next((todo for todo in todos if todo["id"] == todo_id), None)`). -/
def find_todo_by_id (todos : List Todo) (todo_id : Int) : Option Todo :=
  todos.find? (fun todo => todo.id == todo_id)

/-- Embeds the pydantic model `TodoCreate`: the request is accepted exactly
when `task` satisfies `min_length=1, max_length=200`.  Pydantic counts
characters and does not trim whitespace, so `" "` is accepted. -/
def todoCreateValid (task : String) : Bool :=
  1 ≤ task.length && task.length ≤ 200

/-- Embeds the pydantic model `TodoUpdate`: an omitted `task` is accepted;
a supplied `task` must satisfy `min_length=1, max_length=200`.
`completed` is an unconstrained optional boolean. -/
def todoUpdateValid (task? : Option String) : Bool :=
  match task? with
  | none => true
  | some task => 1 ≤ task.length && task.length ≤ 200

/-- Embeds `GET /todos` (`get_todos`): returns the full list, no state change. -/
def get_todos (todos : List Todo) : List Todo :=
  todos

/-- Embeds `POST /todos` (`create_todo`) together with the pydantic
validation of its `TodoCreate` body: on a valid body, builds
`{"id": get_next_id(), "task": todo.task, "completed": False}`, appends it
and returns it (201); on an invalid body pydantic rejects with 422 before
the handler runs, leaving `todos` untouched. -/
def create_todo (todos : List Todo) (task : String) :
    Except ApiError Todo × List Todo :=
  if todoCreateValid task then
    let new_todo : Todo := { id := get_next_id todos, task := task, completed := false }
    (Except.ok new_todo, todos ++ [new_todo])
  else
    (Except.error ApiError.validationError, todos)

/-- Embeds `GET /todos/{todo_id}` (`get_todo`): 404 when `find_todo_by_id`
returns `None`, otherwise the found record.  (The Python guard is
`if not todo:`; stored records are non-empty dicts, so falsiness coincides
with `None`.)  The handler never mutates `todos`. -/
def get_todo (todos : List Todo) (todo_id : Int) : Except ApiError Todo :=
  match find_todo_by_id todos todo_id with
  | none => Except.error ApiError.notFound
  | some todo => Except.ok todo

/-- Mutating the dict found by `find_todo_by_id` in place updates the first
element of `todos` whose id matches; this helper replaces that element. -/
def replaceFirstById (todos : List Todo) (todo_id : Int) (t' : Todo) : List Todo :=
  match todos with
  | [] => []
  | todo :: rest =>
    if todo.id == todo_id then t' :: rest
    else todo :: replaceFirstById rest todo_id t'

/-- Embeds the field assignments of `update_todo`:
`if todo_update.task is not None: todo["task"] = ...` and likewise for
`completed`; `"id"` is never written. -/
def applyUpdate (todo : Todo) (task? : Option String) (completed? : Option Bool) : Todo :=
  { todo with
    task := task?.getD todo.task,
    completed := completed?.getD todo.completed }

/-- Embeds `PUT /todos/{todo_id}` (`update_todo`) together with the pydantic
validation of its `TodoUpdate` body (which happens before the handler, hence
before the 404 check): 404 when the id is absent; otherwise the found dict is
mutated in place with exactly the supplied fields and returned. -/
def update_todo (todos : List Todo) (todo_id : Int)
    (task? : Option String) (completed? : Option Bool) :
    Except ApiError Todo × List Todo :=
  if todoUpdateValid task? then
    match find_todo_by_id todos todo_id with
    | none => (Except.error ApiError.notFound, todos)
    | some todo =>
      let updated := applyUpdate todo task? completed?
      (Except.ok updated, replaceFirstById todos todo_id updated)
  else
    (Except.error ApiError.validationError, todos)

/-- Removes the first element of `todos` whose id is `todo_id`.  This is
`todos.remove(todo)` for the dict returned by `find_todo_by_id`:
`list.remove` deletes the first value-equal element, every element before the
found one has a different id and hence a different value, so the element
removed is exactly the first one with a matching id. -/
def removeFirstById (todos : List Todo) (todo_id : Int) : List Todo :=
  match todos with
  | [] => []
  | todo :: rest =>
    if todo.id == todo_id then rest
    else todo :: removeFirstById rest todo_id

/-- Embeds `DELETE /todos/{todo_id}` (`delete_todo`): 404 when the id is
absent, otherwise `todos.remove(todo)` (204, no body). -/
def delete_todo (todos : List Todo) (todo_id : Int) :
    Except ApiError Unit × List Todo :=
  match find_todo_by_id todos todo_id with
  | none => (Except.error ApiError.notFound, todos)
  | some _ => (Except.ok (), removeFirstById todos todo_id)

/-- Body of the `GET /health` response. -/
structure HealthResponse where
  status : String
  todo_count : Nat
  version : String
deriving Repr, DecidableEq

/-- Embeds `GET /health` (`health_check`): returns
`{"status": "healthy", "todo_count": len(todos), "version": "1.0.0"}`
and does not touch `todos`. -/
def health_check (todos : List Todo) : HealthResponse × List Todo :=
  ({ status := "healthy", todo_count := todos.length, version := "1.0.0" }, todos)

/-- A state-changing request against variant A, with its parsed arguments.
`GET /`, `GET /todos`, `GET /todos/{id}` and `GET /health` never change the
store, so reachability of store states is determined by these three. -/
inductive AOp where
  | create (task : String)
  | update (todo_id : Int) (task? : Option String) (completed? : Option Bool)
  | delete (todo_id : Int)
deriving Repr, DecidableEq

/-- The `todos` list after serving one request. -/
def stepA (todos : List Todo) : AOp → List Todo
  | AOp.create task => (create_todo todos task).2
  | AOp.update todo_id task? completed? => (update_todo todos todo_id task? completed?).2
  | AOp.delete todo_id => (delete_todo todos todo_id).2

/-- The `todos` list after serving a sequence of requests from the initial
module state `todos = []`. -/
def runA (ops : List AOp) : List Todo :=
  ops.foldl stepA []

end FastApi

namespace FlaskApp

/-- A todo record of variant B, one entry of the module-level list `todos`:
keys `"id"` and `"task"` only (no completed flag). -/
structure TodoB where
  id : Int
  task : String
deriving Repr, DecidableEq

/-- The module-level state of variant B: the list `todos` and the counter
`next_id`. -/
structure BState where
  todos : List TodoB
  next_id : Int
deriving Repr, DecidableEq

/-- Initial module state: `todos = []`, `next_id = 1`. -/
def initB : BState :=
  { todos := [], next_id := 1 }

/-- Model of Python's `str.strip()` with no argument: drops whitespace
characters from both ends of the string. -/
def strip (s : String) : String :=
  String.mk (((s.data.dropWhile Char.isWhitespace).reverse.dropWhile
    Char.isWhitespace).reverse)

/-- Embeds `GET /todos` (`get_todos`): returns the full list, no state change. -/
def get_todos (s : BState) : List TodoB :=
  s.todos

/-- Embeds `POST /todos` (`add_todo`) for a JSON body whose `task` field is
the given string: `task = data['task'].strip()`; if the stripped task is
empty the handler answers 400 `{"error": "Task cannot be empty"}` without
touching the state; otherwise it appends `{"id": next_id, "task": task}`
(the stripped text) and increments `next_id`.  (A non-JSON body or a missing
`task` field is likewise rejected with 400 before any state change; those two
checks precede the string handling modelled here.) -/
def add_todo (s : BState) (task : String) : Except ApiError TodoB × BState :=
  let stripped := strip task
  if stripped = "" then
    (Except.error ApiError.validationError, s)
  else
    let new_todo : TodoB := { id := s.next_id, task := stripped }
    (Except.ok new_todo,
     { todos := s.todos ++ [new_todo], next_id := s.next_id + 1 })

/-- A request against variant B with its parsed arguments: `POST /todos`
changes the state; `GET /` and `GET /todos` never do. -/
inductive BOp where
  | create (task : String)
  | listAll
deriving Repr, DecidableEq

/-- The module state after serving one request. -/
def stepB (s : BState) : BOp → BState
  | BOp.create task => (add_todo s task).2
  | BOp.listAll => s

/-- The module state after serving a sequence of requests from `initB`. -/
def runB (ops : List BOp) : BState :=
  ops.foldl stepB initB

/-- Invariant of the Flask module state: the counter is one more than the
number of stored items, and the stored ids are exactly `1, 2, ..., n` in
order. -/
def BInv (s : BState) : Prop :=
  s.next_id = (s.todos.length : Int) + 1 ∧
  s.todos.map TodoB.id = (List.range' 1 s.todos.length).map Int.ofNat

end FlaskApp

namespace FastApi

/-- Characterizes a failing lookup: `find_todo_by_id` returns `None` exactly
when no stored record carries the requested id. -/
theorem find_todo_by_id_eq_none {s : List Todo} {i : Int} :
    find_todo_by_id s i = none ↔ ∀ t ∈ s, t.id ≠ i := by
  simp [find_todo_by_id, List.find?_eq_none]

/-- Characterizes a successful lookup: the record returned by
`find_todo_by_id` carries the requested id and belongs to the store. -/
theorem find_todo_by_id_some {s : List Todo} {i : Int} {t : Todo}
    (h : find_todo_by_id s i = some t) : t.id = i ∧ t ∈ s := by
  refine ⟨?_, List.mem_of_find?_eq_some h⟩
  simpa using List.find?_some h

/-- Peeling one element off a lookup when the head does not match. -/
theorem find_todo_by_id_cons_ne {a : Todo} {rest : List Todo} {i : Int}
    (ha : a.id ≠ i) :
    find_todo_by_id (a :: rest) i = find_todo_by_id rest i := by
  simp [find_todo_by_id, List.find?_cons_of_neg, ha]

/-- The replacement record is an element of the updated store whenever the
lookup that guards the replacement succeeded. -/
theorem mem_replaceFirstById {s : List Todo} {i : Int} {t t' : Todo}
    (h : find_todo_by_id s i = some t) : t' ∈ replaceFirstById s i t' := by
  induction s with
  | nil => simp [find_todo_by_id] at h
  | cons a rest ih =>
    by_cases ha : a.id = i
    · simp [replaceFirstById, ha]
    · have h' : find_todo_by_id rest i = some t := by
        rwa [find_todo_by_id_cons_ne ha] at h
      simpa [replaceFirstById, ha] using Or.inr (ih h')

/-- Looking up the replaced id after a replacement yields the replacement,
provided it carries the looked-up id. -/
theorem find_replaceFirstById {s : List Todo} {i : Int} {t t' : Todo}
    (h : find_todo_by_id s i = some t) (ht' : t'.id = i) :
    find_todo_by_id (replaceFirstById s i t') i = some t' := by
  induction s with
  | nil => simp [find_todo_by_id] at h
  | cons a rest ih =>
    by_cases ha : a.id = i
    · simp [replaceFirstById, ha, find_todo_by_id, List.find?_cons_of_pos, ht']
    · have h' : find_todo_by_id rest i = some t := by
        rwa [find_todo_by_id_cons_ne ha] at h
      have : find_todo_by_id (a :: replaceFirstById rest i t') i =
          find_todo_by_id (replaceFirstById rest i t') i :=
        find_todo_by_id_cons_ne ha
      simpa [replaceFirstById, ha, this] using ih h'

/-- When at most one stored record carries the id, removing the first match
leaves no record with that id behind. -/
theorem removeFirstById_id_ne {s : List Todo} {i : Int}
    (hc : s.countP (fun u => u.id == i) ≤ 1) :
    ∀ u ∈ removeFirstById s i, u.id ≠ i := by
  induction s with
  | nil => intro u hu; simp [removeFirstById] at hu
  | cons a rest ih =>
    intro u hu
    by_cases ha : a.id = i
    · have h0 : ∀ v ∈ rest, v.id ≠ i := by
        have hcc := hc
        rw [List.countP_cons] at hcc
        simpa [ha] using hcc
      have hu' : u ∈ rest := by simpa [removeFirstById, ha] using hu
      exact h0 u hu'
    · have hu' : u ∈ a :: removeFirstById rest i := by
        simpa [removeFirstById, ha] using hu
      rcases List.mem_cons.mp hu' with rfl | hmem
      · exact ha
      · have hc' : rest.countP (fun u => u.id == i) ≤ 1 := by
          have hcc := hc
          rw [List.countP_cons] at hcc
          simpa [ha] using hcc
        exact ih hc' u hmem

end FastApi

/-- C1: the spec invariant that all ids in the store are unique in both
variants is violated by variant A's count-based id scheme: from the empty
store, the request sequence create "a", create "b", create "c",
delete 2, create "d" reaches a store whose ids are `[1, 3, 3]`, which has a
duplicate.  (Variant B's counter scheme does keep ids unique; see the C9
theorem.) -/
theorem fastapi_duplicate_ids_C1 :
    (FastApi.runA [FastApi.AOp.create "a", FastApi.AOp.create "b", FastApi.AOp.create "c",
        FastApi.AOp.delete 2, FastApi.AOp.create "d"]).map FastApi.Todo.id = [1, 3, 3] ∧
    ¬ ((FastApi.runA [FastApi.AOp.create "a", FastApi.AOp.create "b", FastApi.AOp.create "c",
        FastApi.AOp.delete 2, FastApi.AOp.create "d"]).map FastApi.Todo.id).Nodup := by
  constructor
  · decide
  · decide

/-- C2: in variant A, creating three items, deleting the second and creating
a new item makes the new item's id (`len(todos) + 1 = 3`) collide with the id
of the item already in the store: before the final create the store holds ids
`[1, 3]`, and the final create succeeds returning id 3. -/
theorem fastapi_id_collision_C2 :
    (FastApi.create_todo
        (FastApi.runA [FastApi.AOp.create "a", FastApi.AOp.create "b", FastApi.AOp.create "c",
          FastApi.AOp.delete 2]) "d").1 = Except.ok ⟨3, "d", false⟩ ∧
    (3 : Int) ∈ (FastApi.runA [FastApi.AOp.create "a", FastApi.AOp.create "b",
        FastApi.AOp.create "c", FastApi.AOp.delete 2]).map FastApi.Todo.id := by
  constructor
  · decide
  · decide

/-- Helper: a non-empty string has length at least one. -/
theorem one_le_length_of_ne_empty {task : String} (h : task ≠ "") :
    1 ≤ task.length := by
  cases task with
  | mk data =>
    cases data with
    | nil => exact absurd rfl h
    | cons c cs =>
      simp [String.length]

/-- C3 counterexample: in variant A the whitespace-only task `" "` is NOT
rejected — pydantic's `min_length=1` counts characters without trimming — so
`create_todo` succeeds and appends an item, contradicting the claim that in
both variants every empty-or-whitespace-only task fails validation with
nothing added. -/
theorem fastapi_whitespace_task_C3_cex :
    (FastApi.create_todo [] " ").1 = Except.ok ⟨1, " ", false⟩ ∧
    (FastApi.create_todo [] " ").2 = [⟨1, " ", false⟩] := by
  refine ⟨by decide, by decide⟩

/-- C3 amended: in variant B every task that is empty or whitespace-only
(its strip is empty) fails validation and leaves the state untouched; in
variant A the empty task fails validation and leaves the store untouched,
but a whitespace-only non-empty task (of length at most 200) passes
validation and is appended to the store. -/
theorem empty_task_rejected_C3 (s : List FastApi.Todo) (bs : FlaskApp.BState)
    (task : String) (hws : FlaskApp.strip task = "") :
    FastApi.create_todo s "" = (Except.error ApiError.validationError, s) ∧
    FlaskApp.add_todo bs task = (Except.error ApiError.validationError, bs) ∧
    (task ≠ "" → task.length ≤ 200 →
      FastApi.create_todo s task =
        (Except.ok ⟨(s.length : Int) + 1, task, false⟩,
         s ++ [⟨(s.length : Int) + 1, task, false⟩])) := by
  refine ⟨?_, ?_, ?_⟩
  · simp [FastApi.create_todo, FastApi.todoCreateValid]
  · simp [FlaskApp.add_todo, hws]
  · intro hne hlen
    have h1 : 1 ≤ task.length := one_le_length_of_ne_empty hne
    have hv : FastApi.todoCreateValid task = true := by
      simp [FastApi.todoCreateValid, h1, hlen]
    simp [FastApi.create_todo, hv, FastApi.get_next_id]

/-- Closed instance of the C3 theorem at the empty store, the initial Flask
state and the task `" "`. -/
theorem empty_task_rejected_C3_witness :
    FastApi.create_todo [] "" = (Except.error ApiError.validationError, []) ∧
    FlaskApp.add_todo FlaskApp.initB " " =
      (Except.error ApiError.validationError, FlaskApp.initB) ∧
    FastApi.create_todo [] " " =
      (Except.ok ⟨(([] : List FastApi.Todo).length : Int) + 1, " ", false⟩,
       [] ++ [⟨(([] : List FastApi.Todo).length : Int) + 1, " ", false⟩]) :=
  ⟨(empty_task_rejected_C3 [] FlaskApp.initB " " (by decide)).1,
   (empty_task_rejected_C3 [] FlaskApp.initB " " (by decide)).2.1,
   (empty_task_rejected_C3 [] FlaskApp.initB " " (by decide)).2.2
     (by decide) (by decide)⟩

/-- C4 counterexample: in variant A, from the reachable store obtained by
create "a", create "b", create "c", delete 2, a successful create of
"buy milk" returns id 3, which is the id of an item already in the store —
the freshly assigned id is NOT distinct from every stored id. -/
theorem fastapi_stale_id_C4_cex :
    (FastApi.create_todo
        (FastApi.runA [FastApi.AOp.create "a", FastApi.AOp.create "b", FastApi.AOp.create "c",
          FastApi.AOp.delete 2]) "buy milk").1 = Except.ok ⟨3, "buy milk", false⟩ ∧
    (3 : Int) ∈ (FastApi.runA [FastApi.AOp.create "a", FastApi.AOp.create "b",
        FastApi.AOp.create "c", FastApi.AOp.delete 2]).map FastApi.Todo.id := by
  refine ⟨by decide, by decide⟩

/-- C4 amended: in variant A a successful create of "buy milk" returns an
item with that task, `completed = false` and id `store size + 1`, appended to
the store and hence in the next List(); the id is distinct from every stored
id provided every stored id is at most the store size (true in deletion-free
states, but violated in some reachable states, see the counterexample).  In
variant B the created item carries the task and the current counter as id,
appears in the next List(), and its id is distinct from every stored id
whenever all stored ids are below the counter (true in every reachable
state); variant B items have no completed field. -/
theorem create_buy_milk_C4 (s : List FastApi.Todo) (bs : FlaskApp.BState)
    (hA : ∀ t ∈ s, t.id ≤ (s.length : Int))
    (hB : ∀ t ∈ bs.todos, t.id < bs.next_id) :
    FastApi.create_todo s "buy milk" =
      (Except.ok ⟨(s.length : Int) + 1, "buy milk", false⟩,
       s ++ [⟨(s.length : Int) + 1, "buy milk", false⟩]) ∧
    FastApi.Todo.mk ((s.length : Int) + 1) "buy milk" false ∈
      FastApi.get_todos (FastApi.create_todo s "buy milk").2 ∧
    ((s.length : Int) + 1) ∉ s.map FastApi.Todo.id ∧
    FlaskApp.add_todo bs "buy milk" =
      (Except.ok ⟨bs.next_id, "buy milk"⟩,
       { todos := bs.todos ++ [⟨bs.next_id, "buy milk"⟩], next_id := bs.next_id + 1 }) ∧
    FlaskApp.TodoB.mk bs.next_id "buy milk" ∈
      FlaskApp.get_todos (FlaskApp.add_todo bs "buy milk").2 ∧
    bs.next_id ∉ bs.todos.map FlaskApp.TodoB.id := by
  have hv : FastApi.todoCreateValid "buy milk" = true := by decide
  have hstr : FlaskApp.strip "buy milk" = "buy milk" := by decide
  have hne : ("buy milk" : String) ≠ "" := by decide
  have heqA : FastApi.create_todo s "buy milk" =
      (Except.ok ⟨(s.length : Int) + 1, "buy milk", false⟩,
       s ++ [⟨(s.length : Int) + 1, "buy milk", false⟩]) := by
    simp [FastApi.create_todo, hv, FastApi.get_next_id]
  have heqB : FlaskApp.add_todo bs "buy milk" =
      (Except.ok ⟨bs.next_id, "buy milk"⟩,
       { todos := bs.todos ++ [⟨bs.next_id, "buy milk"⟩], next_id := bs.next_id + 1 }) := by
    simp [FlaskApp.add_todo, hstr, hne]
  refine ⟨heqA, ?_, ?_, heqB, ?_, ?_⟩
  · rw [heqA]; simp [FastApi.get_todos]
  · intro hmem
    simp only [List.mem_map] at hmem
    obtain ⟨t, ht, hid⟩ := hmem
    have := hA t ht
    omega
  · rw [heqB]; simp [FlaskApp.get_todos]
  · intro hmem
    simp only [List.mem_map] at hmem
    obtain ⟨t, ht, hid⟩ := hmem
    have := hB t ht
    omega

/-- Closed instance of the C4 theorem at the empty store and the initial
Flask state. -/
theorem create_buy_milk_C4_witness :
    FastApi.create_todo [] "buy milk" =
      (Except.ok ⟨(([] : List FastApi.Todo).length : Int) + 1, "buy milk", false⟩,
       [] ++ [⟨(([] : List FastApi.Todo).length : Int) + 1, "buy milk", false⟩]) ∧
    FlaskApp.add_todo FlaskApp.initB "buy milk" =
      (Except.ok ⟨FlaskApp.initB.next_id, "buy milk"⟩,
       { todos := FlaskApp.initB.todos ++ [⟨FlaskApp.initB.next_id, "buy milk"⟩],
         next_id := FlaskApp.initB.next_id + 1 }) :=
  ⟨(create_buy_milk_C4 [] FlaskApp.initB (by simp) (by simp [FlaskApp.initB])).1,
   (create_buy_milk_C4 [] FlaskApp.initB (by simp)
     (by simp [FlaskApp.initB])).2.2.2.1⟩

/-- C5: in variant A, on any store and any integer id carried by no stored
item, Get answers 404, Update (with a body passing pydantic validation)
answers 404 leaving the store untouched, and Delete answers 404 leaving the
store untouched. -/
theorem notfound_on_absent_id_C5 (s : List FastApi.Todo) (i : Int)
    (habs : ∀ t ∈ s, t.id ≠ i) (task? : Option String) (completed? : Option Bool)
    (hv : FastApi.todoUpdateValid task? = true) :
    FastApi.get_todo s i = Except.error ApiError.notFound ∧
    FastApi.update_todo s i task? completed? = (Except.error ApiError.notFound, s) ∧
    FastApi.delete_todo s i = (Except.error ApiError.notFound, s) := by
  have hnone : FastApi.find_todo_by_id s i = none :=
    FastApi.find_todo_by_id_eq_none.mpr habs
  refine ⟨?_, ?_, ?_⟩
  · simp [FastApi.get_todo, hnone]
  · simp [FastApi.update_todo, hv, hnone]
  · simp [FastApi.delete_todo, hnone]

/-- Closed instance of the C5 theorem: id 999 against a one-item store. -/
theorem notfound_on_absent_id_C5_witness :
    FastApi.get_todo [FastApi.Todo.mk 1 "a" false] 999 = Except.error ApiError.notFound ∧
    FastApi.update_todo [FastApi.Todo.mk 1 "a" false] 999 none (some true) =
      (Except.error ApiError.notFound, [FastApi.Todo.mk 1 "a" false]) ∧
    FastApi.delete_todo [FastApi.Todo.mk 1 "a" false] 999 =
      (Except.error ApiError.notFound, [FastApi.Todo.mk 1 "a" false]) :=
  notfound_on_absent_id_C5 [FastApi.Todo.mk 1 "a" false] 999 (by decide)
    none (some true) (by decide)

/-- C6: in variant A, updating an item found in the store applies exactly the
supplied fields: the returned record keeps the stored id, takes the supplied
task if any (otherwise the stored one) and the supplied completed flag if any
(otherwise the stored one); in particular an update supplying only
`completed = true` returns and stores the item with its task and id unchanged
and `completed` set to true, and that item is found in the store afterwards. -/
theorem update_partial_C6 (s : List FastApi.Todo) (i : Int) (t : FastApi.Todo)
    (task? : Option String) (completed? : Option Bool)
    (hfind : FastApi.find_todo_by_id s i = some t)
    (hv : FastApi.todoUpdateValid task? = true) :
    (FastApi.update_todo s i task? completed?).1 =
      Except.ok ⟨t.id, task?.getD t.task, completed?.getD t.completed⟩ ∧
    FastApi.update_todo s i none (some true) =
      (Except.ok ⟨t.id, t.task, true⟩,
       FastApi.replaceFirstById s i ⟨t.id, t.task, true⟩) ∧
    FastApi.Todo.mk t.id t.task true ∈
      FastApi.get_todos (FastApi.update_todo s i none (some true)).2 ∧
    FastApi.find_todo_by_id (FastApi.update_todo s i none (some true)).2 i =
      some ⟨t.id, t.task, true⟩ := by
  have happ : FastApi.applyUpdate t task? completed? =
      FastApi.Todo.mk t.id (task?.getD t.task) (completed?.getD t.completed) := rfl
  have happ2 : FastApi.applyUpdate t none (some true) =
      FastApi.Todo.mk t.id t.task true := rfl
  have heq2 : FastApi.update_todo s i none (some true) =
      (Except.ok ⟨t.id, t.task, true⟩,
       FastApi.replaceFirstById s i ⟨t.id, t.task, true⟩) := by
    simp [FastApi.update_todo, FastApi.todoUpdateValid, hfind, happ2]
  have hid : (FastApi.Todo.mk t.id t.task true).id = i :=
    (FastApi.find_todo_by_id_some hfind).1
  refine ⟨?_, heq2, ?_, ?_⟩
  · simp [FastApi.update_todo, hv, hfind, happ]
  · rw [heq2]
    exact FastApi.mem_replaceFirstById hfind
  · rw [heq2]
    exact FastApi.find_replaceFirstById hfind hid

/-- Closed instance of the C6 theorem: completed-only update of the single
item of a one-item store. -/
theorem update_partial_C6_witness :
    (FastApi.update_todo [FastApi.Todo.mk 1 "a" false] 1 none (some true)).1 =
      Except.ok ⟨1, "a", true⟩ ∧
    FastApi.find_todo_by_id
        (FastApi.update_todo [FastApi.Todo.mk 1 "a" false] 1 none (some true)).2 1 =
      some ⟨1, "a", true⟩ :=
  ⟨(update_partial_C6 [FastApi.Todo.mk 1 "a" false] 1 (FastApi.Todo.mk 1 "a" false)
      none (some true) (by decide) (by decide)).1,
   (update_partial_C6 [FastApi.Todo.mk 1 "a" false] 1 (FastApi.Todo.mk 1 "a" false)
      none (some true) (by decide) (by decide)).2.2.2⟩

/-- C7 counterexample: the reachable variant A store with ids `[1, 3, 3]`
(create "a", create "b", create "c", delete 2, create "d") has id 3 present;
deleting id 3 succeeds but removes only the first match, so the store still
holds an item with id 3 and a subsequent Get(3) succeeds instead of failing
with 404. -/
theorem fastapi_delete_dup_C7_cex :
    (3 : Int) ∈ (FastApi.runA [FastApi.AOp.create "a", FastApi.AOp.create "b",
        FastApi.AOp.create "c", FastApi.AOp.delete 2, FastApi.AOp.create "d"]).map
        FastApi.Todo.id ∧
    (FastApi.delete_todo (FastApi.runA [FastApi.AOp.create "a", FastApi.AOp.create "b",
        FastApi.AOp.create "c", FastApi.AOp.delete 2, FastApi.AOp.create "d"]) 3).1 =
      Except.ok () ∧
    (3 : Int) ∈ ((FastApi.delete_todo (FastApi.runA [FastApi.AOp.create "a",
        FastApi.AOp.create "b", FastApi.AOp.create "c", FastApi.AOp.delete 2,
        FastApi.AOp.create "d"]) 3).2).map FastApi.Todo.id ∧
    FastApi.get_todo ((FastApi.delete_todo (FastApi.runA [FastApi.AOp.create "a",
        FastApi.AOp.create "b", FastApi.AOp.create "c", FastApi.AOp.delete 2,
        FastApi.AOp.create "d"]) 3).2) 3 = Except.ok ⟨3, "d", false⟩ := by
  refine ⟨by decide, by decide, by decide, by decide⟩

/-- C7 amended: in variant A, for every store state and every id carried by
at most one stored item (true in deletion-free reachable states, but
violable in reachable states with duplicated ids, see the counterexample),
if the id is present then Delete succeeds, afterwards List() contains no
item with that id, and a subsequent Get on it fails with 404. -/
theorem delete_removes_id_C7 (s : List FastApi.Todo) (i : Int) (t : FastApi.Todo)
    (hc : s.countP (fun u => u.id == i) ≤ 1)
    (hfind : FastApi.find_todo_by_id s i = some t) :
    (FastApi.delete_todo s i).1 = Except.ok () ∧
    (∀ u ∈ FastApi.get_todos (FastApi.delete_todo s i).2, u.id ≠ i) ∧
    FastApi.get_todo (FastApi.delete_todo s i).2 i = Except.error ApiError.notFound := by
  have heq : FastApi.delete_todo s i = (Except.ok (), FastApi.removeFirstById s i) := by
    simp [FastApi.delete_todo, hfind]
  have hnot : ∀ u ∈ FastApi.removeFirstById s i, u.id ≠ i :=
    FastApi.removeFirstById_id_ne hc
  refine ⟨by rw [heq], ?_, ?_⟩
  · rw [heq]
    exact hnot
  · rw [heq]
    simp [FastApi.get_todo, FastApi.find_todo_by_id_eq_none.mpr hnot]

/-- Closed instance of the C7 theorem: deleting the single item of a
one-item store. -/
theorem delete_removes_id_C7_witness :
    (FastApi.delete_todo [FastApi.Todo.mk 1 "a" false] 1).1 = Except.ok () ∧
    (∀ u ∈ FastApi.get_todos (FastApi.delete_todo [FastApi.Todo.mk 1 "a" false] 1).2,
      u.id ≠ 1) ∧
    FastApi.get_todo (FastApi.delete_todo [FastApi.Todo.mk 1 "a" false] 1).2 1 =
      Except.error ApiError.notFound :=
  delete_removes_id_C7 [FastApi.Todo.mk 1 "a" false] 1 (FastApi.Todo.mk 1 "a" false)
    (by decide) (by decide)

/-- C8: every modelled operation is atomic with respect to failure: a create
rejected by validation (either variant), and an update or delete answering
404, leave the store — and in variant B the counter — exactly as they were.
(Get and List never change state: the embedding gives them no state
component, mirroring handlers that never assign to the globals.) -/
theorem atomic_on_failure_C8 (s : List FastApi.Todo) (bs : FlaskApp.BState)
    (task : String) (i : Int) (task? : Option String) (completed? : Option Bool) :
    ((FastApi.create_todo s task).1 = Except.error ApiError.validationError →
      (FastApi.create_todo s task).2 = s) ∧
    (∀ e, (FastApi.update_todo s i task? completed?).1 = Except.error e →
      (FastApi.update_todo s i task? completed?).2 = s) ∧
    (∀ e, (FastApi.delete_todo s i).1 = Except.error e →
      (FastApi.delete_todo s i).2 = s) ∧
    ((FlaskApp.add_todo bs task).1 = Except.error ApiError.validationError →
      (FlaskApp.add_todo bs task).2 = bs) := by
  refine ⟨?_, ?_, ?_, ?_⟩
  · intro h
    by_cases hv : FastApi.todoCreateValid task = true
    · simp [FastApi.create_todo, hv] at h
    · simp [FastApi.create_todo, hv]
  · intro e h
    by_cases hv : FastApi.todoUpdateValid task? = true
    · cases hfind : FastApi.find_todo_by_id s i with
      | none => simp [FastApi.update_todo, hv, hfind]
      | some t => simp [FastApi.update_todo, hv, hfind] at h
    · simp [FastApi.update_todo, hv]
  · intro e h
    cases hfind : FastApi.find_todo_by_id s i with
    | none => simp [FastApi.delete_todo, hfind]
    | some t => simp [FastApi.delete_todo, hfind] at h
  · intro h
    by_cases hstr : FlaskApp.strip task = ""
    · simp [FlaskApp.add_todo, hstr]
    · simp [FlaskApp.add_todo, hstr] at h

/-- Closed instance of the C8 theorem: a rejected create, a 404 update and a
404 delete on the empty store, and a rejected whitespace-only create on the
initial Flask state. -/
theorem atomic_on_failure_C8_witness :
    (FastApi.create_todo [] "").2 = [] ∧
    (FastApi.update_todo [] 999 none (some true)).2 = [] ∧
    (FastApi.delete_todo [] 999).2 = [] ∧
    (FlaskApp.add_todo FlaskApp.initB " ").2 = FlaskApp.initB :=
  ⟨(atomic_on_failure_C8 [] FlaskApp.initB "" 999 none (some true)).1 (by decide),
   (atomic_on_failure_C8 [] FlaskApp.initB "" 999 none (some true)).2.1
     ApiError.notFound (by decide),
   (atomic_on_failure_C8 [] FlaskApp.initB "" 999 none (some true)).2.2.1
     ApiError.notFound (by decide),
   (atomic_on_failure_C8 [] FlaskApp.initB " " 999 none (some true)).2.2.2 (by decide)⟩

namespace FlaskApp

/-- The initial Flask state satisfies the counter invariant. -/
theorem BInv_initB : BInv initB := by
  constructor <;> simp [initB, BInv]

/-- Serving one request preserves the counter invariant. -/
theorem BInv_stepB {s : BState} (h : BInv s) (op : BOp) : BInv (stepB s op) := by
  obtain ⟨h1, h2⟩ := h
  cases op with
  | listAll => exact ⟨h1, h2⟩
  | create task =>
    show BInv (add_todo s task).2
    by_cases hstr : strip task = ""
    · simpa [add_todo, hstr] using (⟨h1, h2⟩ : BInv s)
    · have heq : (add_todo s task).2 =
          { todos := s.todos ++ [⟨s.next_id, strip task⟩], next_id := s.next_id + 1 } := by
        simp [add_todo, hstr]
      rw [heq]
      constructor
      · simp only [BInv, List.length_append, List.length_cons, List.length_nil]
        rw [h1]
        push_cast
        ring
      · simp only [BInv, List.map_append, List.map_cons, List.map_nil,
          List.length_append, List.length_cons, List.length_nil]
        rw [h2, h1, List.range'_concat, List.map_append]
        simp
        omega

/-- Every reachable Flask state satisfies the counter invariant. -/
theorem BInv_runB (ops : List BOp) : BInv (runB ops) := by
  have key : ∀ (l : List BOp) (s : BState), BInv s → BInv (l.foldl stepB s) := by
    intro l
    induction l with
    | nil => intro s hs; exact hs
    | cons op rest ih => intro s hs; exact ih _ (BInv_stepB hs op)
  exact key ops initB BInv_initB

end FlaskApp

/-- C9: in variant B the counter starts at 1; a successful create assigns the
current counter as the new item's id, appends the item, and increments the
counter by exactly one; a rejected create leaves the state untouched; and in
every reachable state the counter is one more than the item count, the
stored ids are exactly `1, 2, ..., n` in creation order (hence strictly
increasing and pairwise distinct), and every stored id is below the counter,
so no assigned id is ever assigned again. -/
theorem flask_counter_C9 :
    FlaskApp.initB.next_id = 1 ∧
    (∀ s task item, (FlaskApp.add_todo s task).1 = Except.ok item →
      item.id = s.next_id ∧
      (FlaskApp.add_todo s task).2.next_id = s.next_id + 1 ∧
      (FlaskApp.add_todo s task).2.todos = s.todos ++ [item]) ∧
    (∀ s task, (FlaskApp.add_todo s task).1 = Except.error ApiError.validationError →
      (FlaskApp.add_todo s task).2 = s) ∧
    (∀ ops, (FlaskApp.runB ops).next_id = ((FlaskApp.runB ops).todos.length : Int) + 1 ∧
      (FlaskApp.runB ops).todos.map FlaskApp.TodoB.id =
        (List.range' 1 (FlaskApp.runB ops).todos.length).map Int.ofNat ∧
      List.Pairwise (· < ·) ((FlaskApp.runB ops).todos.map FlaskApp.TodoB.id) ∧
      (∀ t ∈ (FlaskApp.runB ops).todos, t.id < (FlaskApp.runB ops).next_id)) := by
  refine ⟨rfl, ?_, ?_, ?_⟩
  · intro s task item h
    by_cases hstr : FlaskApp.strip task = ""
    · simp [FlaskApp.add_todo, hstr] at h
    · have h' : FlaskApp.TodoB.mk s.next_id (FlaskApp.strip task) = item := by
        simpa [FlaskApp.add_todo, hstr] using h
      subst h'
      refine ⟨rfl, ?_, ?_⟩ <;> simp [FlaskApp.add_todo, hstr]
  · intro s task h
    by_cases hstr : FlaskApp.strip task = ""
    · simp [FlaskApp.add_todo, hstr]
    · simp [FlaskApp.add_todo, hstr] at h
  · intro ops
    obtain ⟨h1, h2⟩ := FlaskApp.BInv_runB ops
    refine ⟨h1, h2, ?_, ?_⟩
    · rw [h2]
      exact List.Pairwise.map Int.ofNat (fun a b hab => Int.ofNat_lt.mpr hab)
        (List.pairwise_lt_range' 1 _)
    · intro t ht
      have hmem : t.id ∈ (List.range' 1 (FlaskApp.runB ops).todos.length).map
          Int.ofNat := by
        rw [← h2]
        exact List.mem_map_of_mem FlaskApp.TodoB.id ht
      rw [h1]
      simp only [List.mem_map, List.mem_range'_1] at hmem
      obtain ⟨k, ⟨hk1, hk2⟩, hkid⟩ := hmem
      have hkid' : (k : Int) = t.id := hkid
      omega

/-- Closed instance of the C9 theorem: a successful create from the initial
state increments the counter, a rejected one leaves the state unchanged. -/
theorem flask_counter_C9_witness :
    (FlaskApp.add_todo FlaskApp.initB "a").2.next_id = FlaskApp.initB.next_id + 1 ∧
    (FlaskApp.add_todo FlaskApp.initB "").2 = FlaskApp.initB :=
  ⟨(flask_counter_C9.2.1 FlaskApp.initB "a" ⟨1, "a"⟩ (by decide)).2.1,
   flask_counter_C9.2.2.1 FlaskApp.initB "" (by decide)⟩

/-- C10: in variant A, on any store the health check reports status
"healthy", version "1.0.0" and a todo count equal to the number of stored
items, and leaves the store unchanged. -/
theorem health_check_C10 (s : List FastApi.Todo) :
    (FastApi.health_check s).1.status = "healthy" ∧
    (FastApi.health_check s).1.todo_count = (FastApi.get_todos s).length ∧
    (FastApi.health_check s).1.version = "1.0.0" ∧
    (FastApi.health_check s).2 = s :=
  ⟨rfl, rfl, rfl, rfl⟩
